import Mathlib

/-!
Verification of the native HDR data-space shim
(`src/app/src/main/cpp/native-hdr.c`).

The C file exports one JNI entry point,
`Java_com_pgeneratorplus_android_hdr_HdrEglHelper_nativeSetBuffersDataSpace`,
which lazily resolves `ANativeWindow_setBuffersDataSpace` via `dlsym`
(cached in two static variables `pfn` and `resolved`), acquires an
`ANativeWindow` from the Java surface, invokes the resolved function,
releases the window, and returns the result.

We embed the function shallowly:
 * `Env` packages the platform facilities the shim calls into
   (the dynamic linker, `ANativeWindow_fromSurface`, and the behaviour of
   the resolved platform setter).
 * `ResolverState` mirrors the two C statics `pfn` / `resolved`.
 * `Trace` records the externally observable side effects of one call:
   dlsym lookups, dlopen attempts, window acquisitions and releases, and
   every invocation of the platform setter with its arguments.
 * `dispatch` is the entry point; it threads the resolver state
   explicitly and returns the new state, the trace, and the jint status.

A separate small-step interleaving model (`tstep` / `runSched`) exposes
the individual reads and writes of the two statics, to examine the
concurrency behaviour of the unsynchronized lazy initialization.
-/

/-- Function-pointer values are abstracted as `Nat` identifiers; `0` is
never used, `Option Nat` distinguishes NULL (`none`) from a valid
pointer (`some f`). Windows are likewise `Nat` identifiers. -/
structure Env where
  /-- Result of `dlsym(RTLD_DEFAULT, "ANativeWindow_setBuffersDataSpace")`. -/
  dlsymDefault : Option Nat
  /-- Whether `dlopen("libnativewindow.so", RTLD_LAZY)` returns a handle. -/
  dlopenNativeWindow : Bool
  /-- Result of `dlsym(lib, "ANativeWindow_setBuffersDataSpace")` in that library. -/
  dlsymLib : Option Nat
  /-- `ANativeWindow_fromSurface`: `none` models a NULL window (invalid or
  null surface), `some w` a successfully acquired window handle. -/
  fromSurface : Int → Option Nat
  /-- Behaviour of the resolved platform setter: given the function
  identity, the window and the dataSpace tag, its `int32_t` return. -/
  setBuffersDataSpace : Nat → Nat → Int → Int

/-- The two C statics: `static PFN_setBuffersDataSpace pfn` and
`static int resolved`. -/
structure ResolverState where
  resolved : Bool
  pfn : Option Nat
deriving DecidableEq, Repr

/-- Process start: `pfn = NULL`, `resolved = 0`. -/
def initState : ResolverState := ⟨false, none⟩

/-- Observable side effects of one dispatch call. -/
structure Trace where
  /-- Number of `dlsym` calls performed. -/
  lookups : Nat
  /-- Number of `dlopen` calls performed. -/
  dlopens : Nat
  /-- Number of `ANativeWindow_fromSurface` calls performed. -/
  acquireAttempts : Nat
  /-- Number of those that returned a non-NULL window. -/
  acquireSuccesses : Nat
  /-- Number of `ANativeWindow_release` calls performed. -/
  releases : Nat
  /-- Every invocation of the platform setter: (function, window, tag). -/
  calls : List (Nat × Nat × Int)
deriving DecidableEq, Repr

def Trace.empty : Trace := ⟨0, 0, 0, 0, 0, []⟩

/-- Record a failed `ANativeWindow_fromSurface`. -/
def Trace.withAcquireFail (t : Trace) : Trace :=
  ⟨t.lookups, t.dlopens, t.acquireAttempts + 1, t.acquireSuccesses,
   t.releases, t.calls⟩

/-- Record a successful acquisition, one setter invocation, and the
matching release. -/
def Trace.withCall (t : Trace) (f w : Nat) (ds : Int) : Trace :=
  ⟨t.lookups, t.dlopens, t.acquireAttempts + 1, t.acquireSuccesses + 1,
   t.releases + 1, t.calls ++ [(f, w, ds)]⟩

/-- The symbol-lookup procedure of `native-hdr.c` lines 41–54: try
`dlsym(RTLD_DEFAULT, ...)`; if NULL, `dlopen("libnativewindow.so")` and,
if that yields a handle, retry `dlsym` inside it. Returns the resulting
pointer together with the number of `dlsym` calls and of `dlopen` calls
performed. -/
def lookupResult (env : Env) : Option Nat × Nat × Nat :=
  match env.dlsymDefault with
  | some f => (some f, 1, 0)
  | none =>
    if env.dlopenNativeWindow then
      (env.dlsymLib, 2, 1)
    else
      (none, 1, 1)

/-- Lines 36–60: `if (!resolved) { resolved = 1; ...lookup...; }`.
In this sequential model the body runs atomically; the interleaving
model below exposes its intermediate states. -/
def resolveStep (env : Env) (s : ResolverState) : ResolverState × Trace :=
  if s.resolved then
    (s, Trace.empty)
  else
    (⟨true, (lookupResult env).1⟩,
     ⟨(lookupResult env).2.1, (lookupResult env).2.2, 0, 0, 0, []⟩)

/-- Lines 62–81: the post-resolution body of the entry point.
`pfn == NULL → return -2`; `ANativeWindow_fromSurface == NULL →
return -1`; otherwise invoke `pfn(window, dataSpace)`, release the
window, and return the result. -/
def dispatchResolved (env : Env) (t : Trace) (pfn : Option Nat)
    (surface dataSpace : Int) : Trace × Int :=
  match pfn with
  | none => (t, -2)
  | some f =>
    match env.fromSurface surface with
    | none => (t.withAcquireFail, -1)
    | some w => (t.withCall f w dataSpace, env.setBuffersDataSpace f w dataSpace)

/-- The full entry point
`Java_com_pgeneratorplus_android_hdr_HdrEglHelper_nativeSetBuffersDataSpace`:
resolver step followed by the dispatch body, returning the new resolver
state, the side-effect trace, and the jint status. -/
def dispatch (env : Env) (s : ResolverState) (surface dataSpace : Int) :
    ResolverState × Trace × Int :=
  ((resolveStep env s).1,
   dispatchResolved env (resolveStep env s).2 (resolveStep env s).1.pfn
     surface dataSpace)

/-- Resolver state after one dispatch call. -/
def dispatchState (env : Env) (s : ResolverState) (surface dataSpace : Int) :
    ResolverState :=
  (dispatch env s surface dataSpace).1

/-- Side-effect trace of one dispatch call. -/
def dispatchTrace (env : Env) (s : ResolverState) (surface dataSpace : Int) :
    Trace :=
  (dispatch env s surface dataSpace).2.1

/-- Status returned by one dispatch call. -/
def dispatchStatus (env : Env) (s : ResolverState) (surface dataSpace : Int) :
    Int :=
  (dispatch env s surface dataSpace).2.2

/-- A sequence of dispatch calls in one process, each with its own
environment (so the platform may "change" between calls), threading the
process-wide resolver state; returns the final state and the per-call
traces and statuses. -/
def runCalls (s : ResolverState) :
    List (Env × Int × Int) → ResolverState × List (Trace × Int)
  | [] => (s, [])
  | (env, sf, ds) :: rest =>
    let r := dispatch env s sf ds
    let out := runCalls r.1 rest
    (out.1, (r.2.1, r.2.2) :: out.2)

/-!
Interleaving model of the lazy initialization.

The C statics are written without synchronization, so concurrent calls
race on them.  Source order within one thread (lines 38–64):

 1. read `resolved` (line 38);
 2. if it was 0: write `resolved = 1` (line 39);
 3. perform the lookup and write `pfn` (lines 41–54);
 4. read `pfn` (line 62) and either return −2 or continue into the
    acquire/call/release body.

Each numbered step is one atomic transition of `tstep` (a generous
sequentially consistent reading of what the C abstract machine would
allow; the race as written is formally undefined behaviour).  A thread
whose step 4 sees `pfn = NULL` returns −2; one that sees a function
records return 0, abstracting the rest of the call as succeeding. -/

inductive TPC
  | rdFlag
  | wrFlag
  | doLookup
  | chk
  | done
deriving DecidableEq, Repr

/-- Program counter and (once finished) return value of one thread. -/
structure ThreadSt where
  pc : TPC
  ret : Option Int
deriving DecidableEq, Repr

/-- Shared statics plus the per-thread states. `lookups` counts dlsym
calls, as in `Trace`. -/
structure Conf where
  resolved : Bool
  pfn : Option Nat
  lookups : Nat
  threads : List ThreadSt
deriving DecidableEq, Repr

/-- One atomic step of thread `i` (no-op if `i` is out of range or the
thread is done). -/
def tstep (env : Env) (c : Conf) (i : Nat) : Conf :=
  match c.threads.get? i with
  | none => c
  | some th =>
    match th.pc with
    | .rdFlag =>
      if c.resolved then
        ⟨c.resolved, c.pfn, c.lookups, c.threads.set i ⟨.chk, th.ret⟩⟩
      else
        ⟨c.resolved, c.pfn, c.lookups, c.threads.set i ⟨.wrFlag, th.ret⟩⟩
    | .wrFlag =>
      ⟨true, c.pfn, c.lookups, c.threads.set i ⟨.doLookup, th.ret⟩⟩
    | .doLookup =>
      ⟨c.resolved, (lookupResult env).1, c.lookups + (lookupResult env).2.1,
       c.threads.set i ⟨.chk, th.ret⟩⟩
    | .chk =>
      if c.pfn = none then
        ⟨c.resolved, c.pfn, c.lookups, c.threads.set i ⟨.done, some (-2)⟩⟩
      else
        ⟨c.resolved, c.pfn, c.lookups, c.threads.set i ⟨.done, some 0⟩⟩
    | .done => c

/-- Run a schedule (a list of thread indices) from a configuration. -/
def runSched (env : Env) : Conf → List Nat → Conf
  | c, [] => c
  | c, i :: rest => runSched env (tstep env c i) rest

/-!  Concrete environments used in witnesses and counterexamples. -/

/-- Symbol present in the default scope (identity 3); surface 0 yields
window 5, any other surface fails to acquire; the platform setter
succeeds on tag 0 and returns −38 otherwise. -/
def envAvail : Env :=
  ⟨some 3, false, none,
   fun sf => if sf = 0 then some 5 else none,
   fun _ _ ds => if ds = 0 then 0 else -38⟩

/-- Symbol absent everywhere: default lookup fails, `dlopen` fails. -/
def envAbsent : Env :=
  ⟨none, false, none, fun _ => some 5, fun _ _ _ => 0⟩

/-- Symbol absent in default scope but found via
`dlopen("libnativewindow.so")` (identity 7). -/
def envViaLib : Env :=
  ⟨none, true, some 7,
   fun sf => if sf = 0 then some 5 else none,
   fun _ _ _ => 0⟩

/-- Symbol present; the platform setter itself returns −2 on every
input. -/
def envPlatNeg2 : Env :=
  ⟨some 3, false, none, fun _ => some 5, fun _ _ _ => -2⟩

/-- Symbol present; the platform setter always returns −38. -/
def envPlatNeg38 : Env :=
  ⟨some 3, false, none, fun _ => some 5, fun _ _ _ => -38⟩

/-- Resolver already in the terminal `unavailable` state. -/
def sUnavail : ResolverState := ⟨true, none⟩

/-- Resolver already in the terminal `available` state with pointer 3. -/
def sAvail : ResolverState := ⟨true, some 3⟩

/-- Two threads, both about to enter the entry point, statics at their
process-start values. -/
def raceConf : Conf := ⟨false, none, 0, [⟨.rdFlag, none⟩, ⟨.rdFlag, none⟩]⟩

/-- The interleaving that exhibits the race: thread 0 reads the flag and
writes `resolved = 1`; thread 1 then reads the flag (sees 1), checks
`pfn` (still NULL) and returns −2; thread 0 finishes the lookup and
succeeds. -/
def raceSched : List Nat := [0, 0, 1, 1, 0, 0]

example : dispatch envAvail initState 0 0 =
    (⟨true, some 3⟩, ⟨1, 0, 1, 1, 1, [(3, 5, 0)]⟩, 0) := by decide
example : dispatch envAvail initState 1 0 =
    (⟨true, some 3⟩, ⟨1, 0, 1, 0, 0, []⟩, -1) := by decide
example : dispatch envAbsent initState 0 0 =
    (⟨true, none⟩, ⟨1, 1, 0, 0, 0, []⟩, -2) := by decide
example : dispatch envViaLib initState 0 9 =
    (⟨true, some 7⟩, ⟨2, 1, 1, 1, 1, [(7, 5, 9)]⟩, 0) := by decide
example : dispatch envPlatNeg38 sAvail 0 1 =
    (sAvail, ⟨0, 0, 1, 1, 1, [(3, 5, 1)]⟩, -38) := by decide

/-! Helper lemmas about the resolver step and dispatch. -/

theorem resolveStep_of_resolved (env : Env) {s : ResolverState}
    (h : s.resolved = true) : resolveStep env s = (s, Trace.empty) := by
  simp [resolveStep, h]

theorem resolveStep_resolved_true (env : Env) (s : ResolverState) :
    (resolveStep env s).1.resolved = true := by
  unfold resolveStep
  split
  · assumption
  · rfl

theorem resolveStep_trace_pure (env : Env) (s : ResolverState) :
    (resolveStep env s).2.acquireAttempts = 0 ∧
    (resolveStep env s).2.acquireSuccesses = 0 ∧
    (resolveStep env s).2.releases = 0 ∧
    (resolveStep env s).2.calls = [] := by
  unfold resolveStep
  split <;> exact ⟨rfl, rfl, rfl, rfl⟩

theorem dispatch_fst (env : Env) (s : ResolverState) (sf ds : Int) :
    (dispatch env s sf ds).1 = (resolveStep env s).1 := rfl

theorem dispatch_fst_of_resolved (env : Env) {s : ResolverState}
    (h : s.resolved = true) (sf ds : Int) : (dispatch env s sf ds).1 = s := by
  rw [dispatch_fst, resolveStep_of_resolved env h]

theorem dispatch_trace_pure_of_resolved (env : Env) {s : ResolverState}
    (h : s.resolved = true) (sf ds : Int) :
    (dispatch env s sf ds).2.1.lookups = 0 ∧
    (dispatch env s sf ds).2.1.dlopens = 0 := by
  unfold dispatch dispatchResolved
  rw [resolveStep_of_resolved env h]
  rcases hp : s.pfn with _ | f
  · simp [hp, Trace.empty]
  · rcases ha : env.fromSurface sf with _ | w <;>
      simp [hp, ha, Trace.withAcquireFail, Trace.withCall, Trace.empty]

theorem dispatch_status_neg2_of_pfn_none (env : Env) (s : ResolverState)
    (sf ds : Int) (h : (resolveStep env s).1.pfn = none) :
    (dispatch env s sf ds).2.2 = -2 := by
  unfold dispatch dispatchResolved
  simp [h]

theorem runCalls_resolved {s : ResolverState} (h : s.resolved = true)
    (l : List (Env × Int × Int)) :
    (runCalls s l).1 = s ∧
    ∀ p ∈ (runCalls s l).2, p.1.lookups = 0 ∧ p.1.dlopens = 0 := by
  induction l with
  | nil => simp [runCalls]
  | cons hd tl ih =>
    obtain ⟨env, sf, ds⟩ := hd
    have h1 := dispatch_fst_of_resolved env h sf ds
    have h2 := dispatch_trace_pure_of_resolved env h sf ds
    simp only [runCalls, h1]
    refine ⟨ih.1, ?_⟩
    intro p hp
    rcases List.mem_cons.mp hp with hcase | hcase
    · rw [hcase]; exact h2
    · exact ih.2 p hcase

theorem runCalls_unavailable {s : ResolverState} (h1 : s.resolved = true)
    (h2 : s.pfn = none) (l : List (Env × Int × Int)) :
    ∀ p ∈ (runCalls s l).2, p.2 = -2 := by
  induction l with
  | nil => simp [runCalls]
  | cons hd tl ih =>
    obtain ⟨env, sf, ds⟩ := hd
    have hst := dispatch_fst_of_resolved env h1 sf ds
    have hpf : (resolveStep env s).1.pfn = none := by
      rw [resolveStep_of_resolved env h1]; exact h2
    have hval := dispatch_status_neg2_of_pfn_none env s sf ds hpf
    simp only [runCalls, hst]
    intro p hp
    rcases List.mem_cons.mp hp with hcase | hcase
    · rw [hcase]; exact hval
    · exact ih p hcase

/-! The claims. -/

/-- C3: in any sequence of dispatch calls in one process, the resolver
performs its lookup only on the first call (later calls do no `dlsym`
and no `dlopen`), the resolver state reached by call 1 is terminal
(`resolved` is set and the state never changes again), and if call 1
left the outcome `unavailable` (`pfn = NULL`) then call 1 returned −2
and every later call returns −2, even if the symbol would be found by
the later call's environment. -/
theorem c3_one_shot_resolution (env : Env) (sf ds : Int)
    (rest : List (Env × Int × Int)) :
    (dispatchState env initState sf ds).resolved = true ∧
    (runCalls (dispatchState env initState sf ds) rest).1 =
      dispatchState env initState sf ds ∧
    (∀ p ∈ (runCalls (dispatchState env initState sf ds) rest).2,
      p.1.lookups = 0 ∧ p.1.dlopens = 0) ∧
    ((dispatchState env initState sf ds).pfn = none →
      dispatchStatus env initState sf ds = -2 ∧
      ∀ p ∈ (runCalls (dispatchState env initState sf ds) rest).2,
        p.2 = -2) := by
  have hres : (dispatchState env initState sf ds).resolved = true := by
    unfold dispatchState
    rw [dispatch_fst]
    exact resolveStep_resolved_true env initState
  refine ⟨hres, (runCalls_resolved hres rest).1,
    (runCalls_resolved hres rest).2, ?_⟩
  intro hnone
  have hpfn : (resolveStep env initState).1.pfn = none := hnone
  exact ⟨dispatch_status_neg2_of_pfn_none env initState sf ds hpfn,
    runCalls_unavailable hres hnone rest⟩

/-- Witness for C3 at a concrete run: the symbol is absent on call 1,
present in call 2's environment, yet call 2 still returns −2. -/
theorem c3_witness :
    (dispatchState envAbsent initState 0 0).pfn = none ∧
    (Trace.empty, (-2 : Int)) ∈
      (runCalls (dispatchState envAbsent initState 0 0) [(envAvail, 0, 0)]).2 ∧
    (Trace.empty, (-2 : Int)).2 = -2 :=
  ⟨rfl, by decide,
   ((c3_one_shot_resolution envAbsent 0 0 [(envAvail, 0, 0)]).2.2.2 rfl).2
     (Trace.empty, (-2 : Int)) (by decide)⟩

/-- C4: in every dispatch call the number of `ANativeWindow_release`
calls equals the number of successful acquisitions (so the window's
reference count is unchanged by the call), at most one acquisition
succeeds per call, and whenever acquisition succeeded exactly one
release is performed — on every control path, including the one where
the platform setter returns a non-zero failure code. -/
theorem c4_paired_release (env : Env) (s : ResolverState) (sf ds : Int) :
    (dispatchTrace env s sf ds).releases =
      (dispatchTrace env s sf ds).acquireSuccesses ∧
    (dispatchTrace env s sf ds).acquireSuccesses ≤ 1 ∧
    ((dispatchTrace env s sf ds).acquireSuccesses = 1 →
      (dispatchTrace env s sf ds).releases = 1) := by
  have hr := resolveStep_trace_pure env s
  unfold dispatchTrace dispatch dispatchResolved
  rcases hp : (resolveStep env s).1.pfn with _ | f
  · simp [hp, hr.2.1, hr.2.2.1]
  · rcases ha : env.fromSurface sf with _ | w
    · simp [hp, ha, Trace.withAcquireFail, hr.2.1, hr.2.2.1]
    · simp [hp, ha, Trace.withCall, hr.2.1, hr.2.2.1]

/-- Witness for C4 on the path where the platform setter fails
(returns −38): the release still balances the acquisition. -/
theorem c4_witness :
    (dispatchTrace envPlatNeg38 initState 0 1).releases =
      (dispatchTrace envPlatNeg38 initState 0 1).acquireSuccesses ∧
    (dispatchTrace envPlatNeg38 initState 0 1).acquireSuccesses = 1 ∧
    (dispatchTrace envPlatNeg38 initState 0 1).releases = 1 ∧
    dispatchStatus envPlatNeg38 initState 0 1 = -38 :=
  ⟨(c4_paired_release envPlatNeg38 initState 0 1).1, rfl,
   (c4_paired_release envPlatNeg38 initState 0 1).2.2 rfl, rfl⟩

/-- C5: a call made while the resolver is in the terminal `unavailable`
state (`resolved` set, `pfn = NULL`) returns −2 immediately, attempts no
window acquisition, invokes the platform setter zero times, performs no
lookup, and leaves the resolver state unchanged — for every surface and
dataSpace argument. -/
theorem c5_unavailable_short_circuit (env : Env) (s : ResolverState)
    (sf ds : Int) (hres : s.resolved = true) (hpfn : s.pfn = none) :
    dispatchStatus env s sf ds = -2 ∧
    (dispatchTrace env s sf ds).acquireAttempts = 0 ∧
    (dispatchTrace env s sf ds).calls = [] ∧
    (dispatchTrace env s sf ds).lookups = 0 ∧
    dispatchState env s sf ds = s := by
  have h := resolveStep_of_resolved env hres
  unfold dispatchStatus dispatchTrace dispatchState dispatch dispatchResolved
  rw [h]
  simp [hpfn, Trace.empty]

/-- Witness for C5 in the unavailable state with a valid surface and an
arbitrary tag. -/
theorem c5_witness :
    sUnavail.resolved = true ∧ sUnavail.pfn = none ∧
    (dispatchStatus envAvail sUnavail 0 9 = -2 ∧
     (dispatchTrace envAvail sUnavail 0 9).acquireAttempts = 0 ∧
     (dispatchTrace envAvail sUnavail 0 9).calls = [] ∧
     (dispatchTrace envAvail sUnavail 0 9).lookups = 0 ∧
     dispatchState envAvail sUnavail 0 9 = sUnavail) :=
  ⟨rfl, rfl, c5_unavailable_short_circuit envAvail sUnavail 0 9 rfl rfl⟩

/-- C6: when this call's resolver outcome is `available` but
`ANativeWindow_fromSurface` returns NULL (in particular for a null or
invalid surface), the call returns −1 and the platform setter is not
invoked; no release is performed either. -/
theorem c6_acquire_failure (env : Env) (s : ResolverState) (sf ds : Int)
    (f : Nat) (hpfn : (resolveStep env s).1.pfn = some f)
    (hacq : env.fromSurface sf = none) :
    dispatchStatus env s sf ds = -1 ∧
    (dispatchTrace env s sf ds).calls = [] ∧
    (dispatchTrace env s sf ds).releases = 0 := by
  have hr := resolveStep_trace_pure env s
  unfold dispatchStatus dispatchTrace dispatch dispatchResolved
  simp [hpfn, hacq, Trace.withAcquireFail, hr.2.2.1, hr.2.2.2]

/-- Witness for C6: available resolver, surface 1 fails to acquire. -/
theorem c6_witness :
    (resolveStep envAvail sAvail).1.pfn = some 3 ∧
    envAvail.fromSurface 1 = none ∧
    (dispatchStatus envAvail sAvail 1 0 = -1 ∧
     (dispatchTrace envAvail sAvail 1 0).calls = [] ∧
     (dispatchTrace envAvail sAvail 1 0).releases = 0) :=
  ⟨by decide, by decide,
   c6_acquire_failure envAvail sAvail 1 0 3 (by decide) (by decide)⟩

/-- C7: when this call's resolver outcome is `available(f)` and
acquisition yields window `w`, the resolved function is invoked exactly
once, with `w` and the caller-supplied tag; the window is released; and
the call's status is exactly the setter's return value `r`, whatever it
is. -/
theorem c7_invoke_and_return_r (env : Env) (s : ResolverState)
    (sf ds : Int) (f w : Nat)
    (hpfn : (resolveStep env s).1.pfn = some f)
    (hacq : env.fromSurface sf = some w) :
    dispatchStatus env s sf ds = env.setBuffersDataSpace f w ds ∧
    (dispatchTrace env s sf ds).calls = [(f, w, ds)] ∧
    (dispatchTrace env s sf ds).releases = 1 := by
  have hr := resolveStep_trace_pure env s
  unfold dispatchStatus dispatchTrace dispatch dispatchResolved
  simp [hpfn, hacq, Trace.withCall, hr.2.2.1, hr.2.2.2]

/-- Witness for C7 with a platform setter that returns −38: the status
is −38 and the setter ran exactly once with the given handle and tag. -/
theorem c7_witness :
    (resolveStep envPlatNeg38 initState).1.pfn = some 3 ∧
    envPlatNeg38.fromSurface 0 = some 5 ∧
    (dispatchStatus envPlatNeg38 initState 0 1 =
       envPlatNeg38.setBuffersDataSpace 3 5 1 ∧
     (dispatchTrace envPlatNeg38 initState 0 1).calls = [(3, 5, 1)] ∧
     (dispatchTrace envPlatNeg38 initState 0 1).releases = 1) ∧
    envPlatNeg38.setBuffersDataSpace 3 5 1 = -38 :=
  ⟨by decide, by decide,
   c7_invoke_and_return_r envPlatNeg38 initState 0 1 3 5 (by decide) (by decide),
   rfl⟩

/-- C8: on the invoking path the dataSpace tag is handed to the platform
setter verbatim — for every 32-bit tag value, recognized or not, the
single recorded invocation carries exactly that tag and the status is
exactly the platform's verdict on it. -/
theorem c8_tag_verbatim (env : Env) (s : ResolverState) (sf : Int)
    (f w : Nat) (hpfn : (resolveStep env s).1.pfn = some f)
    (hacq : env.fromSurface sf = some w) :
    ∀ ds : Int,
      (dispatchTrace env s sf ds).calls = [(f, w, ds)] ∧
      dispatchStatus env s sf ds = env.setBuffersDataSpace f w ds := by
  intro ds
  have hr := resolveStep_trace_pure env s
  unfold dispatchStatus dispatchTrace dispatch dispatchResolved
  simp [hpfn, hacq, Trace.withCall, hr.2.2.2]

/-- Witness for C8 at an unrecognized tag value (17, neither BT2020_PQ
0x09C60000 nor BT2020_HLG 0x09460000). -/
theorem c8_witness :
    (resolveStep envAvail initState).1.pfn = some 3 ∧
    envAvail.fromSurface 0 = some 5 ∧
    ((dispatchTrace envAvail initState 0 17).calls = [(3, 5, 17)] ∧
     dispatchStatus envAvail initState 0 17 =
       envAvail.setBuffersDataSpace 3 5 17) :=
  ⟨by decide, by decide,
   c8_tag_verbatim envAvail initState 0 3 5 (by decide) (by decide) 17⟩

/-- C9: the first-resolution lookup order. If the default-scope `dlsym`
finds the symbol, it is used and `dlopen` is never attempted (0 dlopens,
1 lookup). Only if it fails is `dlopen("libnativewindow.so")` attempted
(exactly 1 dlopen); when the load succeeds the lookup is repeated inside
that library, otherwise the outcome is unavailable after the single
failed lookup. -/
theorem c9_lookup_order (env : Env) (s : ResolverState)
    (h : s.resolved = false) :
    (∀ f, env.dlsymDefault = some f →
      (resolveStep env s).1.pfn = some f ∧
      (resolveStep env s).2.dlopens = 0 ∧
      (resolveStep env s).2.lookups = 1) ∧
    (env.dlsymDefault = none →
      (resolveStep env s).2.dlopens = 1 ∧
      (resolveStep env s).1.pfn =
        (if env.dlopenNativeWindow then env.dlsymLib else none) ∧
      (resolveStep env s).2.lookups =
        (if env.dlopenNativeWindow then 2 else 1)) := by
  constructor
  · intro f hf
    unfold resolveStep lookupResult
    simp [h, hf]
  · intro hf
    unfold resolveStep lookupResult
    rcases hb : env.dlopenNativeWindow <;> simp [h, hf, hb]

/-- Witness for C9: default-scope lookup succeeds, no dlopen happens. -/
theorem c9_witness :
    initState.resolved = false ∧ envAvail.dlsymDefault = some 3 ∧
    ((resolveStep envAvail initState).1.pfn = some 3 ∧
     (resolveStep envAvail initState).2.dlopens = 0 ∧
     (resolveStep envAvail initState).2.lookups = 1) :=
  ⟨rfl, rfl, (c9_lookup_order envAvail initState rfl).1 3 rfl⟩

/-- C10: no null dereference. Every recorded invocation of the platform
setter uses the function that the resolver actually holds (a non-NULL
pointer, since it is `some`) and a window that `fromSurface` actually
returned (non-NULL, since it is `some`); and releases are performed
exactly as many times as acquisitions succeeded, so no NULL window is
ever released. -/
theorem c10_no_null_deref (env : Env) (s : ResolverState) (sf ds : Int) :
    (∀ c ∈ (dispatchTrace env s sf ds).calls,
      (dispatchState env s sf ds).pfn = some c.1 ∧
      env.fromSurface sf = some c.2.1) ∧
    (dispatchTrace env s sf ds).releases =
      (dispatchTrace env s sf ds).acquireSuccesses := by
  have hr := resolveStep_trace_pure env s
  unfold dispatchTrace dispatchState dispatch dispatchResolved
  rcases hp : (resolveStep env s).1.pfn with _ | f
  · simp [hp, hr.2.2.2, hr.2.1, hr.2.2.1]
  · rcases ha : env.fromSurface sf with _ | w
    · simp [hp, ha, Trace.withAcquireFail, hr.2.2.2, hr.2.1, hr.2.2.1]
    · simp [hp, ha, Trace.withCall, hr.2.2.2, hr.2.1, hr.2.2.1]

/-- Witness for C10 at a concrete invoking call. -/
theorem c10_witness :
    (3, 5, (7 : Int)) ∈ (dispatchTrace envPlatNeg38 initState 0 7).calls ∧
    (dispatchState envPlatNeg38 initState 0 7).pfn = some 3 ∧
    envPlatNeg38.fromSurface 0 = some 5 ∧
    (dispatchTrace envPlatNeg38 initState 0 7).releases =
      (dispatchTrace envPlatNeg38 initState 0 7).acquireSuccesses :=
  ⟨by decide,
   ((c10_no_null_deref envPlatNeg38 initState 0 7).1 (3, 5, 7) (by decide)).1,
   ((c10_no_null_deref envPlatNeg38 initState 0 7).1 (3, 5, 7) (by decide)).2,
   (c10_no_null_deref envPlatNeg38 initState 0 7).2⟩

/-- C1 as stated is false on the code: the call's status is the platform
setter's return value passed through verbatim, so when the setter itself
returns −2 the dispatch returns −2 even though the setter WAS invoked
(here: symbol resolved, window acquired, setter returned −2, exactly one
recorded invocation). The same collision exists for −1. -/
theorem c1_counterexample :
    dispatchStatus envPlatNeg2 initState 0 0 = -2 ∧
    (dispatchTrace envPlatNeg2 initState 0 0).calls.length = 1 := by
  decide

/-- C1 (amended): provided the platform setter never returns −1 or −2,
a returned status of −2 implies the setter was not invoked on that
call, a returned status of −1 likewise, and any other returned status
implies the setter was invoked exactly once. -/
theorem c1_status_side_effect (env : Env) (s : ResolverState) (sf ds : Int)
    (hcall : ∀ f w t, env.setBuffersDataSpace f w t ≠ -2 ∧
      env.setBuffersDataSpace f w t ≠ -1) :
    (dispatchStatus env s sf ds = -2 →
      (dispatchTrace env s sf ds).calls = []) ∧
    (dispatchStatus env s sf ds = -1 →
      (dispatchTrace env s sf ds).calls = []) ∧
    (dispatchStatus env s sf ds ≠ -2 → dispatchStatus env s sf ds ≠ -1 →
      (dispatchTrace env s sf ds).calls.length = 1) := by
  have hr := resolveStep_trace_pure env s
  unfold dispatchStatus dispatchTrace dispatch dispatchResolved
  rcases hp : (resolveStep env s).1.pfn with _ | f
  · simp [hp, hr.2.2.2]
  · rcases ha : env.fromSurface sf with _ | w
    · simp [hp, ha, Trace.withAcquireFail, hr.2.2.2]
    · simp [hp, ha, Trace.withCall, hr.2.2.2,
        (hcall f w ds).1, (hcall f w ds).2]

/-- Witness for the amended C1 with a setter that always returns −38:
the status is neither −2 nor −1 and the setter was invoked exactly
once. -/
theorem c1_witness :
    dispatchStatus envPlatNeg38 initState 0 1 ≠ -2 ∧
    dispatchStatus envPlatNeg38 initState 0 1 ≠ -1 ∧
    (dispatchTrace envPlatNeg38 initState 0 1).calls.length = 1 :=
  ⟨by decide, by decide,
   (c1_status_side_effect envPlatNeg38 initState 0 1
     (fun f w t => ⟨by norm_num [envPlatNeg38], by norm_num [envPlatNeg38]⟩)).2.2
     (by decide) (by decide)⟩

/-- C2 fails on the code: the two statics are written without any
synchronization, and `resolved = 1` is stored BEFORE the lookup writes
`pfn`. Under the schedule `raceSched` (a sequentially consistent
interleaving of the source's own step order), thread 0 sets the flag,
thread 1 then reads `resolved = 1` while `pfn` is still NULL and
returns −2, after which thread 0 completes the lookup and returns
success — with the symbol present the whole time. The two threads thus
observe different terminal resolver outcomes, refuting the claim that
the unresolved→terminal transition is observed atomically and that all
threads observe the same terminal outcome. -/
theorem c2_race_divergent_outcomes :
    envAvail.dlsymDefault = some 3 ∧
    (runSched envAvail raceConf raceSched).threads =
      [⟨TPC.done, some 0⟩, ⟨TPC.done, some (-2)⟩] ∧
    (runSched envAvail raceConf raceSched).pfn = some 3 ∧
    (runSched envAvail raceConf raceSched).lookups = 1 := by
  decide
